import Mathlib

/-!
# Verification of the ELECTRA segment-packing preprocessor

This file embeds the segment-packing algorithm of
`src/models/nlp/common/preprocess.py` (function `create_examples`, lines
144–189) as executable Lean definitions, and proves / refutes the frozen
specification claims about it.

Modelling decisions:

* A Python `str` token is a Lean `String`; a sentence is a `List Token`.
* `random.random()` returns a float in `[0,1)`; every such value is a
  rational, and all comparisons performed on the draws (`< 0.1`, `< 0.5`,
  `< 0.05`) are exact, so draws are modelled as an abstract stream of
  rationals `floats : ℕ → ℚ` consumed in order.  `random.randint(5, m)`
  returns a uniform integer in `[5, m]` when `5 ≤ m` and raises
  `ValueError` when `m < 5`; `randInt` models both outcomes (`none` is the
  raised error), drawing from an abstract stream `ints : ℕ → ℕ` reduced
  into the interval by `5 + k % (m + 1 - 5)`, which realises every
  possible output sequence.  Draws are consumed exactly where the Python
  evaluation order (including boolean short-circuiting) consumes them.
* The raising run is `createExamplesChecked` (`none` when a flush with a
  sub-5 `max_length` hits the `randint` error, aborting the call with
  nothing emitted); `createExamples` is its crash-free projection, proved
  to agree with it (`createExamplesChecked_eq`) whenever `5 ≤ max_length`,
  the only regime in which the error branch is unreachable.
* Python integer arithmetic is `ℤ` where a value can go negative
  (`(target_length - 3) // 2` is `Int.fdiv`, Python floor division);
  list lengths are `ℕ` and are cast where compared against `ℤ` values.
* The Python slice `l[:n]` is `pyTake`: for `n ≥ 0` it is `List.take n`,
  for negative `n` it keeps all but the last `-n` elements, clamped at 0.
* The `flushes` field of `PackState` is a ghost instrumentation counter,
  incremented exactly when the source appends a flushed example
  (line 177); it lets the number of flush events be stated.
-/

abbrev Token := String

abbrev Sentence := List Token

/-- The random-number source: two abstract streams of draw results and the
index of the next unconsumed draw in each.  Mirrors one seeded
`random` stream (preprocess.py uses the module-level `random`). -/
structure RandState where
  floats : ℕ → ℚ
  ints : ℕ → ℕ
  fi : ℕ
  ii : ℕ

/-- One `random.random()` call: the drawn value and the advanced state. -/
def randFloat (r : RandState) : ℚ × RandState :=
  (r.floats r.fi, { r with fi := r.fi + 1 })

/-- The value a `random.randint(lo, hi)` call returns when `lo ≤ hi`: an
integer forced into `[lo, hi]`, plus the advanced state.  For `hi < lo`
Python raises `ValueError` instead (see `randInt`); this total helper then
continues with a wrap-around value, so it is only a faithful model of the
source on runs where `createExamplesChecked` below does not return `none`
(`createExamplesChecked_eq` proves the two runs agree whenever
`5 ≤ max_length`, which makes the error branch unreachable). -/
def randIntWrap (lo hi : ℕ) (r : RandState) : ℕ × RandState :=
  (lo + r.ints r.ii % (hi + 1 - lo), { r with ii := r.ii + 1 })

/-- One `random.randint(lo, hi)` call: the drawn value in `[lo, hi]` and
the advanced state when `lo ≤ hi`, and `none` — Python's raised
`ValueError` — when `hi < lo` (reached by `create_examples` exactly when a
flush's short-target draw fires with `max_length < 5`). -/
def randInt (lo hi : ℕ) (r : RandState) : Option (ℕ × RandState) :=
  if lo ≤ hi then some (randIntWrap lo hi r) else none

/-- Python slice `l[:n]` for an integer `n`: a non-negative `n` keeps the
first `n` elements (clamped to the length); a negative `n` keeps all but
the last `-n` elements (clamped at zero). -/
def pyTake {α : Type} (n : ℤ) (l : List α) : List α :=
  if 0 ≤ n then l.take n.toNat else l.take ((l.length : ℤ) + n).toNat

/-- The working state of `create_examples`: the two accumulating segments,
the current `target_length`, the randomness source, the examples emitted so
far, and the ghost count of flush events. -/
structure PackState where
  firstSegment : List Token
  secondSegment : List Token
  targetLength : ℕ
  rand : RandState
  examples : List (List Token)
  flushes : ℕ

/-- Line 174 of preprocess.py: `first_segment = first_segment[: max_length - 2]`. -/
def flushTrimFirst (maxLen : ℕ) (first : List Token) : List Token :=
  pyTake ((maxLen : ℤ) - 2) first

/-- Line 175 of preprocess.py:
`second_segment = second_segment[: max(0, max_length - len(first_segment) - 3)]`
(where `first_segment` is already trimmed). -/
def flushTrimSecond (maxLen : ℕ) (firstTrimmed second : List Token) : List Token :=
  pyTake (max 0 ((maxLen : ℤ) - firstTrimmed.length - 3)) second

/-- Lines 176 and 187 of preprocess.py:
`["[CLS]"] + first_segment + ["[SEP]"] + second_segment + ["[SEP]"]`. -/
def assemble (first second : List Token) : List Token :=
  ["[CLS]"] ++ first ++ ["[SEP]"] ++ second ++ ["[SEP]"]

/-- Lines 148–152 of preprocess.py: the first-segment target is `100000`
when the draw `p` is below `0.1`, else `(target_length - 3) // 2`
(Python floor division). -/
def deriveFstl (targetLength : ℕ) (p : ℚ) : ℤ :=
  if p < mkRat 1 10 then 100000 else ((targetLength : ℤ) - 3).fdiv 2

/-- Lines 173–183 of preprocess.py: the body of the flush.  Trims both
segments, appends the assembled example, resets the segments, and re-draws
`target_length` (`randint(5, max_length)` with probability `0.05`, else
`max_length`).  The ghost `flushes` counter is incremented.  This is the
crash-free projection (via `randIntWrap`); `flushChecked` below propagates
the `randint` `ValueError` instead. -/
def flush (maxLen : ℕ) (st : PackState) : PackState :=
  let f := flushTrimFirst maxLen st.firstSegment
  let s := flushTrimSecond maxLen f st.secondSegment
  let q := (randFloat st.rand).1
  let r1 := (randFloat st.rand).2
  if q < mkRat 1 20 then
    { firstSegment := [], secondSegment := [],
      targetLength := (randIntWrap 5 maxLen r1).1, rand := (randIntWrap 5 maxLen r1).2,
      examples := st.examples ++ [assemble f s], flushes := st.flushes + 1 }
  else
    { firstSegment := [], secondSegment := [], targetLength := maxLen, rand := r1,
      examples := st.examples ++ [assemble f s], flushes := st.flushes + 1 }

/-- Line 172 of preprocess.py: after a sentence lands in the second
segment, flush iff `len(first_segment) + len(second_segment) >= target_length`. -/
def maybeFlush (maxLen : ℕ) (st : PackState) : PackState :=
  if st.targetLength ≤ st.firstSegment.length + st.secondSegment.length then
    flush maxLen st
  else st

/-- Lines 156–183 of preprocess.py: the loop body for one sentence.  The
sentence goes to the first segment if (1) the first segment is empty, or
(2) it does not put the first segment over `first_segment_target_length`,
or (3) the second segment is empty, the first is under target, and a fresh
`random.random()` draw is below `0.5` (the draw is consumed only when the
first two disjuncts fail and the first two conjuncts of (3) hold, exactly
as Python short-circuiting evaluates it).  Otherwise the sentence goes to
the second segment and the flush condition is checked. -/
def stepSentence (maxLen : ℕ) (fstl : ℤ) (st : PackState) (sentence : Sentence) :
    PackState :=
  if st.firstSegment.length = 0 ∨ ((st.firstSegment.length : ℤ) + sentence.length < fstl) then
    { st with firstSegment := st.firstSegment ++ sentence }
  else if st.secondSegment.length = 0 ∧ ((st.firstSegment.length : ℤ) < fstl) then
    (if (randFloat st.rand).1 < mkRat 1 2 then
      { st with firstSegment := st.firstSegment ++ sentence, rand := (randFloat st.rand).2 }
    else
      maybeFlush maxLen
        { st with secondSegment := st.secondSegment ++ sentence, rand := (randFloat st.rand).2 })
  else
    maybeFlush maxLen { st with secondSegment := st.secondSegment ++ sentence }

/-- The whole `for sentence in batch["tokens"]` loop, with the
(stream-constant) `first_segment_target_length` as a parameter. -/
def packLoop (maxLen : ℕ) (fstl : ℤ) (batch : List Sentence) (st : PackState) :
    PackState :=
  batch.foldl (stepSentence maxLen fstl) st

/-- The state before the loop: empty segments, `target_length = max_length`
(line 146), no examples. -/
def initState (maxLen : ℕ) (r : RandState) : PackState :=
  ⟨[], [], maxLen, r, [], 0⟩

/-- Lines 146–183 of preprocess.py as one run: draw `p` once, derive
`first_segment_target_length` once (from `target_length`, still equal to
`max_length` at that point), then fold the per-sentence step over the
batch.  The source never re-derives `first_segment_target_length`. -/
def packRun (maxLen : ℕ) (batch : List Sentence) (r0 : RandState) : PackState :=
  packLoop maxLen (deriveFstl maxLen (randFloat r0).1) batch
    (initState maxLen (randFloat r0).2)

/-- Lines 144–189 of preprocess.py, `create_examples`: run the loop, then
append the final (untrimmed) example assembled from whatever remains in the
two segments (line 187). -/
def createExamples (maxLen : ℕ) (batch : List Sentence) (r0 : RandState) :
    List (List Token) :=
  let st := packRun maxLen batch r0
  st.examples ++ [assemble st.firstSegment st.secondSegment]

/-- A randomness source whose float draws are all `1/2` (so the
single-segment branch, the 50% branch and the short-target branch all come
out false) and whose integer draws are all `0`. -/
def halfRng : RandState :=
  ⟨fun _ => mkRat 1 2, fun _ => 0, 0, 0⟩

/-- Modelled from the spec (§4.1, flush steps 6–7 together with the
per-cycle target-selection rule), for claim C3: after a flush re-draws
`target_length`, this variant also consumes a fresh uniform draw `p` and
re-derives `first_segment_target_length` from the new cycle's
`target_length`.  The source code (preprocess.py 144–189) has no such
re-derivation; this definition exists to be compared against
`createExamples`. -/
def flushPerCycle (maxLen : ℕ) (st : PackState) : PackState × ℤ :=
  let st1 := flush maxLen st
  ({ st1 with rand := (randFloat st1.rand).2 },
    deriveFstl st1.targetLength (randFloat st1.rand).1)

/-- Modelled from the spec, for claim C3: `maybeFlush` with the per-cycle
re-derivation of `first_segment_target_length`. -/
def maybeFlushPerCycle (maxLen : ℕ) (fstl : ℤ) (st : PackState) : PackState × ℤ :=
  if st.targetLength ≤ st.firstSegment.length + st.secondSegment.length then
    flushPerCycle maxLen st
  else (st, fstl)

/-- Modelled from the spec, for claim C3: the per-sentence step threading
the current cycle's `first_segment_target_length` through the state. -/
def stepSentencePerCycle (maxLen : ℕ) (stf : PackState × ℤ) (sentence : Sentence) :
    PackState × ℤ :=
  let st := stf.1
  let fstl := stf.2
  if st.firstSegment.length = 0 ∨ ((st.firstSegment.length : ℤ) + sentence.length < fstl) then
    ({ st with firstSegment := st.firstSegment ++ sentence }, fstl)
  else if st.secondSegment.length = 0 ∧ ((st.firstSegment.length : ℤ) < fstl) then
    (if (randFloat st.rand).1 < mkRat 1 2 then
      ({ st with firstSegment := st.firstSegment ++ sentence, rand := (randFloat st.rand).2 },
        fstl)
    else
      maybeFlushPerCycle maxLen fstl
        { st with secondSegment := st.secondSegment ++ sentence, rand := (randFloat st.rand).2 })
  else
    maybeFlushPerCycle maxLen fstl { st with secondSegment := st.secondSegment ++ sentence }

/-- Modelled from the spec, for claim C3: the packer as claim C3 describes
it, re-deriving `first_segment_target_length` (with a fresh `p` draw) at
stream start and again after every flush. -/
def createExamplesPerCycle (maxLen : ℕ) (batch : List Sentence) (r0 : RandState) :
    List (List Token) :=
  let stf := batch.foldl (stepSentencePerCycle maxLen)
    (initState maxLen (randFloat r0).2, deriveFstl maxLen (randFloat r0).1)
  stf.1.examples ++ [assemble stf.1.firstSegment stf.1.secondSegment]

/-- The per-cycle-structured loop body with the re-derivation removed:
the flush keeps the threaded `first_segment_target_length` unchanged.
`createExamples` is proved equal to a fold of this step, which is the
formal content of "the target is derived once and never re-derived". -/
def stepSentenceKeep (maxLen : ℕ) (stf : PackState × ℤ) (sentence : Sentence) :
    PackState × ℤ :=
  let st := stf.1
  let fstl := stf.2
  if st.firstSegment.length = 0 ∨ ((st.firstSegment.length : ℤ) + sentence.length < fstl) then
    ({ st with firstSegment := st.firstSegment ++ sentence }, fstl)
  else if st.secondSegment.length = 0 ∧ ((st.firstSegment.length : ℤ) < fstl) then
    (if (randFloat st.rand).1 < mkRat 1 2 then
      ({ st with firstSegment := st.firstSegment ++ sentence, rand := (randFloat st.rand).2 },
        fstl)
    else
      (maybeFlush maxLen
        { st with secondSegment := st.secondSegment ++ sentence, rand := (randFloat st.rand).2 },
        fstl))
  else
    (maybeFlush maxLen { st with secondSegment := st.secondSegment ++ sentence }, fstl)

/-- The packer with `first_segment_target_length` threaded through the loop
state but never updated by a flush. -/
def createExamplesKeep (maxLen : ℕ) (batch : List Sentence) (r0 : RandState) :
    List (List Token) :=
  let stf := batch.foldl (stepSentenceKeep maxLen)
    (initState maxLen (randFloat r0).2, deriveFstl maxLen (randFloat r0).1)
  stf.1.examples ++ [assemble stf.1.firstSegment stf.1.secondSegment]

/-- Translated from preprocess.py lines 49–58: `--max_seq_length` (default
512) and `--shards` (default 1) are declared as plain `type=int` `argparse`
arguments with no bounds check, and no later code (in particular
`create_examples`, lines 144–152) validates them, so every integer
configuration is accepted and processing proceeds.  There is no rejection
path to translate; this definition records that fact. -/
def acceptsConfig (_maxSeqLength _shards : ℤ) : Bool := true

/-- The sentence stream of the spec's worked scenario (and of claim C2). -/
def c2Batch : List Sentence :=
  [["The", "cat", "sat", "."], ["It", "was", "happy", "."]]

/-- The sentence stream used to separate `createExamples` from the
per-cycle re-derivation described by claim C3. -/
def c3Batch : List Sentence :=
  [["a", "b", "c", "d"], ["e", "f", "g", "h", "i", "j", "k"], ["x", "y"], ["z"]]

/-- A randomness source whose second float draw (the short-target draw of
the first flush) is `0` and whose other float draws are `1/2`; integer
draws are all `0` (so `randint(5, m)` returns `5`). -/
def c3Rng : RandState :=
  ⟨fun n => if n = 1 then 0 else mkRat 1 2, fun _ => 0, 0, 0⟩

/-- The number of flush events (appends at line 177 of preprocess.py)
observed while draining the batch, read off the ghost counter. -/
def numFlushes (maxLen : ℕ) (batch : List Sentence) (r0 : RandState) : ℕ :=
  (packRun maxLen batch r0).flushes

/-- Membership of `mid` as one contiguous block of `whole` — the shape claim C4
asserts for the concatenation of an Example's two segments. -/
def ContiguousRun {α : Type} (mid whole : List α) : Prop :=
  ∃ pre post, whole = pre ++ mid ++ post

/-- An assembled example whose two segments are each order-preserving
subsequences of the token stream `F`, jointly using no token occurrence of
`F` more than once. -/
def SegmentsOk (F : List Token) (e : List Token) : Prop :=
  ∃ f s, e = assemble f s ∧ List.Sublist f F ∧ List.Sublist s F ∧
    ∀ t, (f ++ s).count t ≤ F.count t

/-- The packer-state invariant with respect to the consumed token stream
`F`: both live segments are order-preserving subsequences of `F`, jointly
using no token occurrence of `F` more than once, and every already-emitted
example satisfies `SegmentsOk F`. -/
def PackInv (F : List Token) (st : PackState) : Prop :=
  List.Sublist st.firstSegment F ∧ List.Sublist st.secondSegment F ∧
    (∀ t, (st.firstSegment ++ st.secondSegment).count t ≤ F.count t) ∧
    ∀ e ∈ st.examples, SegmentsOk F e

/-- The length invariant: every example emitted by a flush so far has at
most `maxLen + 1` tokens. -/
def LenInv (maxLen : ℕ) (st : PackState) : Prop :=
  ∀ e ∈ st.examples, e.length ≤ maxLen + 1

/-- The sentence stream of the C1 counterexample: an 8-token sentence, a
2-token sentence (which triggers a flush whose trimmed second segment is
empty), then a 9-token sentence left for the end-of-stream example. -/
def c1Batch : List Sentence :=
  [["a1", "a2", "a3", "a4", "a5", "a6", "a7", "a8"], ["b1", "b2"],
   ["c1", "c2", "c3", "c4", "c5", "c6", "c7", "c8", "c9"]]

/-- The sentence stream of the C4 counterexample: sentence 2 lands in the
second segment, then sentence 3 joins the first segment. -/
def c4Batch : List Sentence :=
  [["a"], ["b1", "b2", "b3", "b4", "b5", "b6", "b7", "b8"], ["c"]]

/-- Lines 173–183 of preprocess.py with the error path kept: identical to
`flush` except that the `randint(5, max_length)` call may raise, and the
raised `ValueError` (`none`) aborts the whole call. -/
def flushChecked (maxLen : ℕ) (st : PackState) : Option PackState :=
  let f := flushTrimFirst maxLen st.firstSegment
  let s := flushTrimSecond maxLen f st.secondSegment
  let q := (randFloat st.rand).1
  let r1 := (randFloat st.rand).2
  if q < mkRat 1 20 then
    (randInt 5 maxLen r1).map (fun tr =>
      { firstSegment := [], secondSegment := [], targetLength := tr.1, rand := tr.2,
        examples := st.examples ++ [assemble f s], flushes := st.flushes + 1 })
  else
    some
      { firstSegment := [], secondSegment := [], targetLength := maxLen, rand := r1,
        examples := st.examples ++ [assemble f s], flushes := st.flushes + 1 }

/-- Line 172 of preprocess.py with the error path kept. -/
def maybeFlushChecked (maxLen : ℕ) (st : PackState) : Option PackState :=
  if st.targetLength ≤ st.firstSegment.length + st.secondSegment.length then
    flushChecked maxLen st
  else some st

/-- Lines 156–183 of preprocess.py with the error path kept: identical to
`stepSentence` except that a flush may raise. -/
def stepSentenceChecked (maxLen : ℕ) (fstl : ℤ) (st : PackState) (sentence : Sentence) :
    Option PackState :=
  if st.firstSegment.length = 0 ∨ ((st.firstSegment.length : ℤ) + sentence.length < fstl) then
    some { st with firstSegment := st.firstSegment ++ sentence }
  else if st.secondSegment.length = 0 ∧ ((st.firstSegment.length : ℤ) < fstl) then
    (if (randFloat st.rand).1 < mkRat 1 2 then
      some { st with firstSegment := st.firstSegment ++ sentence, rand := (randFloat st.rand).2 }
    else
      maybeFlushChecked maxLen
        { st with secondSegment := st.secondSegment ++ sentence, rand := (randFloat st.rand).2 })
  else
    maybeFlushChecked maxLen { st with secondSegment := st.secondSegment ++ sentence }

/-- The sentence loop with the error path kept: a raised `ValueError`
stops the loop and propagates out, as a Python exception does. -/
def packLoopChecked (maxLen : ℕ) (fstl : ℤ) : List Sentence → PackState → Option PackState
  | [], st => some st
  | sentence :: rest, st =>
    (stepSentenceChecked maxLen fstl st sentence).bind (packLoopChecked maxLen fstl rest)

/-- Lines 144–189 of preprocess.py with the error path kept: `none` is a
`create_examples` call that raises `ValueError` inside `randint` and
therefore emits nothing at all. -/
def createExamplesChecked (maxLen : ℕ) (batch : List Sentence) (r0 : RandState) :
    Option (List (List Token)) :=
  (packLoopChecked maxLen (deriveFstl maxLen (randFloat r0).1) batch
      (initState maxLen (randFloat r0).2)).map
    (fun st => st.examples ++ [assemble st.firstSegment st.secondSegment])

/-- The sentence stream of the C5 counterexample: two 2-token sentences,
the second of which lands in the second segment and triggers a flush. -/
def c5Batch : List Sentence :=
  [["t1", "t2"], ["u1", "u2"]]

/-- A randomness source whose second float draw (the short-target draw of
the first flush) is `0`, so the flush calls `randint(5, max_length)`; the
other float draws are `1/2`. -/
def c5Rng : RandState :=
  ⟨fun n => if n = 1 then 0 else mkRat 1 2, fun _ => 0, 0, 0⟩

/-- Folding the fstl-threading step equals folding the source's step with
the constant fstl parameter: a flush never changes the threaded value. -/
theorem foldl_stepSentenceKeep (maxLen : ℕ) (batch : List Sentence) :
    ∀ (st : PackState) (fstl : ℤ),
      batch.foldl (stepSentenceKeep maxLen) (st, fstl) =
        (batch.foldl (stepSentence maxLen fstl) st, fstl) := by
  induction batch with
  | nil => intro st fstl; rfl
  | cons s rest ih =>
    intro st fstl
    rw [List.foldl_cons, List.foldl_cons, ← ih]
    have hstep : stepSentenceKeep maxLen (st, fstl) s = (stepSentence maxLen fstl st s, fstl) := by
      simp only [stepSentenceKeep, stepSentence]
      split_ifs <;> rfl
    rw [hstep]

/-- Claim C2 counterexample: with `max_length = 10`, the two scenario
sentences and all relevant draws forced false, the packer does NOT emit the
10-token trimmed example the claim describes (no flush fires, because
`len(first) + len(second) = 8 < target_length = 10`). -/
theorem claimC2_counterexample :
    createExamples 10 c2Batch halfRng ≠
      [["[CLS]", "The", "cat", "sat", ".", "[SEP]", "It", "was", "happy", "[SEP]"]] := by
  decide

/-- Claim C2 amended: in the scenario, no flush is triggered (the flush
condition compares `len(first) + len(second) = 8`, without sentinels,
against `target_length = 10`), and the single end-of-stream Example is the
untrimmed `["[CLS]","The","cat","sat",".","[SEP]","It","was","happy",".","[SEP]"]`
of length 11. -/
theorem claimC2_amended :
    createExamples 10 c2Batch halfRng =
      [["[CLS]", "The", "cat", "sat", ".", "[SEP]", "It", "was", "happy", ".", "[SEP]"]] ∧
    (createExamples 10 c2Batch halfRng).map List.length = [11] := by
  constructor <;> decide

/-- Claim C3 counterexample: the packer that re-derives
`first_segment_target_length` with a fresh `p` draw after every flush (as
the claim states) produces a different output from the source's packer on a
concrete input, so the claim is false of the code. -/
theorem claimC3_counterexample :
    createExamples 11 c3Batch c3Rng ≠ createExamplesPerCycle 11 c3Batch c3Rng := by
  decide

/-- Claim C3 amended: a single `p` draw is consumed at stream start and
`first_segment_target_length` is derived once, from `target_length =
max_length`; it is never re-derived after a flush.  Formally, the source's
run equals the run that threads `first_segment_target_length` through the
loop state with every flush keeping it unchanged. -/
theorem claimC3_amended (maxLen : ℕ) (batch : List Sentence) (r0 : RandState) :
    createExamples maxLen batch r0 = createExamplesKeep maxLen batch r0 := by
  unfold createExamples createExamplesKeep packRun packLoop
  rw [foldl_stepSentenceKeep]

/-- Claim C7: the packer is a deterministic pure function of the input
sentence stream and the randomness stream — two runs on identical inputs
give identical outputs. -/
theorem claimC7_deterministic (maxLen : ℕ) (b1 b2 : List Sentence) (r1 r2 : RandState)
    (hb : b1 = b2) (hr : r1 = r2) :
    createExamples maxLen b1 r1 = createExamples maxLen b2 r2 := by
  subst hb; subst hr; rfl

/-- Witness for claim C7 at a concrete input. -/
theorem claimC7_deterministic_witness :
    createExamples 10 c2Batch halfRng = createExamples 10 c2Batch halfRng :=
  claimC7_deterministic 10 c2Batch c2Batch halfRng halfRng rfl rfl

/-- Claim C8 counterexample: `max_seq_length = 2 ≤ 3` and `shards = -1 < 0`
are both invalid by the claim, yet the configuration is accepted (argparse
declares both as bare `type=int` and nothing validates them), and
`create_examples` happily runs with `max_length = 2`. -/
theorem claimC8_counterexample :
    (2 : ℤ) ≤ 3 ∧ (-1 : ℤ) < 0 ∧ acceptsConfig 2 (-1) = true ∧
      createExamples 2 [["a"]] halfRng = [["[CLS]", "a", "[SEP]", "[SEP]"]] := by
  refine ⟨by decide, by decide, rfl, by decide⟩

/-- Claim C8 amended: the program performs no configuration validation at
all: every integer pair `(max_seq_length, shards)` is accepted, and
processing proceeds even for `max_length ≤ 3` (with `max_length = 2` the
first-segment target is `(2-3)//2 = -1` and examples are still emitted). -/
theorem claimC8_amended (m s : ℤ) :
    acceptsConfig m s = true ∧
      createExamples 2 [["a"]] halfRng = [["[CLS]", "a", "[SEP]", "[SEP]"]] :=
  ⟨rfl, by decide⟩

/-- Claim C10: the second-segment trim bound is non-negative by
construction (`max(0, ·)`), and whenever the trimmed first segment has
length at least `max_length - 3` the trimmed second segment is empty. -/
theorem claimC10_trim_bound (maxLen : ℕ) (first second : List Token) :
    0 ≤ max 0 ((maxLen : ℤ) - (flushTrimFirst maxLen first).length - 3) ∧
      ((maxLen : ℤ) - 3 ≤ (flushTrimFirst maxLen first).length →
        flushTrimSecond maxLen (flushTrimFirst maxLen first) second = []) := by
  refine ⟨le_max_left _ _, fun h => ?_⟩
  unfold flushTrimSecond
  rw [max_eq_left (by omega : (maxLen : ℤ) - (flushTrimFirst maxLen first).length - 3 ≤ 0)]
  simp [pyTake]

/-- Witness for claim C10: with `max_length = 10` and an 8-token first
segment (trimmed to itself), the hypothesis holds and the second segment is
trimmed away entirely. -/
theorem claimC10_trim_bound_witness :
    ((10 : ℤ) - 3 ≤
        (flushTrimFirst 10 ["a1", "a2", "a3", "a4", "a5", "a6", "a7", "a8"]).length) ∧
      flushTrimSecond 10 (flushTrimFirst 10 ["a1", "a2", "a3", "a4", "a5", "a6", "a7", "a8"])
        ["b1", "b2"] = [] :=
  ⟨by decide,
    (claimC10_trim_bound 10 ["a1", "a2", "a3", "a4", "a5", "a6", "a7", "a8"]
      ["b1", "b2"]).2 (by decide)⟩

/-- A Python slice keeps an order-preserving subsequence of the list. -/
theorem pyTake_sublist {α : Type} (n : ℤ) (l : List α) :
    List.Sublist (pyTake n l) l := by
  unfold pyTake
  split <;> exact List.take_sublist _ _

/-- For a non-negative slice bound, `pyTake` returns at most `n` elements. -/
theorem pyTake_length_le {α : Type} (n : ℤ) (l : List α) (h : 0 ≤ n) :
    ((pyTake n l).length : ℤ) ≤ n := by
  have h1 : (pyTake n l).length ≤ n.toNat := by
    unfold pyTake
    rw [if_pos h]
    exact (List.length_take _ _).le.trans (min_le_left _ _)
  omega

/-- An assembled example is exactly three sentinels longer than its
segments. -/
theorem assemble_length (f s : List Token) :
    (assemble f s).length = f.length + s.length + 3 := by
  simp only [assemble, List.length_append, List.length_cons, List.length_nil]
  omega

/-- The predicate `SegmentsOk` is monotone in the reference stream. -/
theorem SegmentsOk.mono {F F' e : List Token} (h : SegmentsOk F e)
    (hFF : List.Sublist F F') : SegmentsOk F' e := by
  obtain ⟨f, s, he, hf, hs, hc⟩ := h
  exact ⟨f, s, he, hf.trans hFF, hs.trans hFF,
    fun t => (hc t).trans (hFF.count_le t)⟩

/-- The example assembled at a flush from trimmed segments satisfying the
segment invariant itself satisfies `SegmentsOk`. -/
theorem segmentsOk_assemble_trim (maxLen : ℕ) {F first second : List Token}
    (hf : List.Sublist first F) (hs : List.Sublist second F)
    (hc : ∀ t, (first ++ second).count t ≤ F.count t) :
    SegmentsOk F (assemble (flushTrimFirst maxLen first)
      (flushTrimSecond maxLen (flushTrimFirst maxLen first) second)) := by
  refine ⟨_, _, rfl, (pyTake_sublist _ _).trans hf, (pyTake_sublist _ _).trans hs,
    fun t => ?_⟩
  have h1 : (flushTrimFirst maxLen first).count t ≤ first.count t :=
    (pyTake_sublist _ _).count_le t
  have h2 : (flushTrimSecond maxLen (flushTrimFirst maxLen first) second).count t ≤
      second.count t :=
    (pyTake_sublist _ _).count_le t
  have h3 := hc t
  simp only [List.count_append] at h3 ⊢
  omega

/-- A flush preserves the segment invariant: it empties both segments and
the example it appends satisfies `SegmentsOk`. -/
theorem packInv_flush {F : List Token} (maxLen : ℕ) {st : PackState} (h : PackInv F st) :
    PackInv F (flush maxLen st) := by
  obtain ⟨hf, hs, hc, hex⟩ := h
  have hnew := segmentsOk_assemble_trim maxLen hf hs hc
  simp only [flush]
  split <;>
  · refine ⟨List.nil_sublist F, List.nil_sublist F, by simp, fun e he => ?_⟩
    rcases List.mem_append.mp he with hm | hm
    · exact hex e hm
    · rw [List.mem_singleton.mp hm]
      exact hnew

/-- The conditional flush preserves the segment invariant. -/
theorem packInv_maybeFlush {F : List Token} (maxLen : ℕ) {st : PackState} (h : PackInv F st) :
    PackInv F (maybeFlush maxLen st) := by
  unfold maybeFlush
  split
  · exact packInv_flush maxLen h
  · exact h

/-- Appending a sentence to the first segment extends the invariant to the
extended stream (for any new randomness field). -/
theorem inv_append_first {F : List Token} (st : PackState) (sentence : Sentence)
    (r : RandState) (h : PackInv F st) :
    PackInv (F ++ sentence)
      { st with firstSegment := st.firstSegment ++ sentence, rand := r } := by
  obtain ⟨hf, hs, hc, hex⟩ := h
  refine ⟨List.Sublist.append hf (List.Sublist.refl sentence),
    hs.trans (List.sublist_append_left F sentence), fun t => ?_,
    fun e he => (hex e he).mono (List.sublist_append_left F sentence)⟩
  have h1 := hc t
  simp only [List.count_append] at h1 ⊢
  omega

/-- Appending a sentence to the second segment and conditionally flushing
extends the invariant to the extended stream. -/
theorem inv_append_second {F : List Token} {maxLen : ℕ} (st : PackState)
    (sentence : Sentence) (r : RandState) (h : PackInv F st) :
    PackInv (F ++ sentence)
      (maybeFlush maxLen
        { st with secondSegment := st.secondSegment ++ sentence, rand := r }) := by
  apply packInv_maybeFlush
  obtain ⟨hf, hs, hc, hex⟩ := h
  refine ⟨hf.trans (List.sublist_append_left F sentence),
    List.Sublist.append hs (List.Sublist.refl sentence), fun t => ?_,
    fun e he => (hex e he).mono (List.sublist_append_left F sentence)⟩
  have h1 := hc t
  simp only [List.count_append] at h1 ⊢
  omega

/-- One loop step preserves the segment invariant, extending the consumed
stream by the processed sentence. -/
theorem packInv_step {F : List Token} (maxLen : ℕ) (fstl : ℤ) {st : PackState}
    (h : PackInv F st) (sentence : Sentence) :
    PackInv (F ++ sentence) (stepSentence maxLen fstl st sentence) := by
  unfold stepSentence
  split_ifs
  · exact inv_append_first st sentence st.rand h
  · exact inv_append_first st sentence (randFloat st.rand).2 h
  · exact inv_append_second st sentence (randFloat st.rand).2 h
  · exact inv_append_second st sentence st.rand h

/-- The whole loop preserves the segment invariant, extending the consumed
stream by all processed tokens. -/
theorem packInv_loop (maxLen : ℕ) (fstl : ℤ) :
    ∀ (batch : List Sentence) (F : List Token) (st : PackState), PackInv F st →
      PackInv (F ++ batch.flatten) (packLoop maxLen fstl batch st) := by
  intro batch
  induction batch with
  | nil =>
    intro F st h
    simpa [packLoop] using h
  | cons sen rest ih =>
    intro F st h
    have h2 := ih (F ++ sen) _ (packInv_step maxLen fstl h sen)
    rw [packLoop, List.foldl_cons, List.flatten_cons, ← List.append_assoc]
    exact h2

/-- Every example emitted by `createExamples` — flushed or final — has
segments drawn order-preservingly and without joint duplication from the
input token stream. -/
theorem segmentsOk_of_mem {maxLen : ℕ} {batch : List Sentence} {r0 : RandState}
    {e : List Token} (he : e ∈ createExamples maxLen batch r0) :
    SegmentsOk batch.flatten e := by
  have hinit : PackInv [] (initState maxLen (randFloat r0).2) :=
    ⟨List.nil_sublist _, List.nil_sublist _, by simp [initState], by simp [initState]⟩
  have hrun := packInv_loop maxLen (deriveFstl maxLen (randFloat r0).1) batch [] _ hinit
  rw [List.nil_append] at hrun
  simp only [createExamples] at he
  rcases List.mem_append.mp he with hm | hm
  · exact hrun.2.2.2 e hm
  · obtain ⟨hf, hs, hc, _⟩ := hrun
    rw [List.mem_singleton.mp hm]
    exact ⟨_, _, rfl, hf, hs, hc⟩

/-- Claim C4 counterexample: with `max_length = 20` and the 50%-branch draw
forced false, sentence 2 lands in the second segment and sentence 3 then
joins the first segment (its length keeps the first segment under target),
so the emitted Example's `first ++ second = [a, c, b1..b8]` is NOT a
contiguous run of the input stream `[a, b1..b8, c]`. -/
theorem claimC4_counterexample :
    (assemble ["a", "c"] ["b1", "b2", "b3", "b4", "b5", "b6", "b7", "b8"]) ∈
        createExamples 20 c4Batch halfRng ∧
      ¬ ContiguousRun (["a", "c"] ++ ["b1", "b2", "b3", "b4", "b5", "b6", "b7", "b8"])
        c4Batch.flatten := by
  refine ⟨by decide, ?_⟩
  rintro ⟨pre, post, hsplit⟩
  have hlen := congrArg List.length hsplit
  simp [c4Batch, List.length_append] at hlen
  have hpre : pre = [] := List.eq_nil_of_length_eq_zero (by omega)
  have hpost : post = [] := List.eq_nil_of_length_eq_zero (by omega)
  subst hpre
  subst hpost
  rw [List.nil_append, List.append_nil] at hsplit
  exact absurd hsplit (by decide)

/-- Claim C4 amended: within each emitted Example, each segment separately
is an order-preserving, duplication-free subsequence of the input token
stream, and the two segments jointly use no input token occurrence more
than once; but `first ++ second` need not be a contiguous run of the
stream, because a sentence may still be routed to the first segment after
an earlier sentence was routed to the second. -/
theorem claimC4_amended (maxLen : ℕ) (batch : List Sentence) (r0 : RandState) :
    ∀ e ∈ createExamples maxLen batch r0,
      ∃ f s, e = assemble f s ∧ List.Sublist f batch.flatten ∧
        List.Sublist s batch.flatten ∧
        ∀ t, (f ++ s).count t ≤ batch.flatten.count t := by
  intro e he
  exact segmentsOk_of_mem he

/-- Witness for claim C4 amended, at the counterexample run: the Example
emitted there decomposes into segments that are subsequences of the input
stream. -/
theorem claimC4_amended_witness :
    ∃ f s, ["[CLS]", "a", "c", "[SEP]", "b1", "b2", "b3", "b4", "b5", "b6", "b7", "b8",
        "[SEP]"] = assemble f s ∧
      List.Sublist f c4Batch.flatten ∧ List.Sublist s c4Batch.flatten ∧
      ∀ t, (f ++ s).count t ≤ c4Batch.flatten.count t :=
  claimC4_amended 20 c4Batch halfRng
    ["[CLS]", "a", "c", "[SEP]", "b1", "b2", "b3", "b4", "b5", "b6", "b7", "b8", "[SEP]"]
    (by decide)

/-- Claim C6: when the input tokens never equal the sentinels, every
emitted Example is `[CLS] ++ f ++ [SEP] ++ s ++ [SEP]` for some segments
`f`, `s`, and contains exactly one `[CLS]` (its first token) and exactly
two `[SEP]` (immediately after each segment). -/
theorem claimC6_sentinel_shape (maxLen : ℕ) (batch : List Sentence) (r0 : RandState)
    (hcls : "[CLS]" ∉ batch.flatten) (hsep : "[SEP]" ∉ batch.flatten) :
    ∀ e ∈ createExamples maxLen batch r0,
      ∃ f s, e = assemble f s ∧ e.count "[CLS]" = 1 ∧ e.count "[SEP]" = 2 := by
  intro e he
  obtain ⟨f, s, hefs, hf, hs, _⟩ := segmentsOk_of_mem he
  have hfc : f.count "[CLS]" = 0 :=
    List.count_eq_zero_of_not_mem (fun hm => hcls (hf.subset hm))
  have hfp : f.count "[SEP]" = 0 :=
    List.count_eq_zero_of_not_mem (fun hm => hsep (hf.subset hm))
  have hsc : s.count "[CLS]" = 0 :=
    List.count_eq_zero_of_not_mem (fun hm => hcls (hs.subset hm))
  have hsp : s.count "[SEP]" = 0 :=
    List.count_eq_zero_of_not_mem (fun hm => hsep (hs.subset hm))
  subst hefs
  refine ⟨f, s, rfl, ?_, ?_⟩ <;>
    simp [assemble, List.count_append, hfc, hfp, hsc, hsp, List.count_cons]

/-- The example assembled at a flush has at most `maxLen + 1` tokens: at
most `maxLen - 2` from the trimmed first segment, at most
`max(0, maxLen - len(first') - 3)` from the trimmed second, plus three
sentinels.  (The bound `maxLen + 1` is tight: when the trimmed first
segment fills `maxLen - 2` the second is trimmed to empty and the total is
`maxLen + 1`.) -/
theorem flush_example_length_le {maxLen : ℕ} (hm : 3 < maxLen)
    (first second : List Token) :
    (assemble (flushTrimFirst maxLen first)
      (flushTrimSecond maxLen (flushTrimFirst maxLen first) second)).length ≤
      maxLen + 1 := by
  have hf : ((flushTrimFirst maxLen first).length : ℤ) ≤ (maxLen : ℤ) - 2 :=
    pyTake_length_le _ _ (by omega)
  have hs : ((flushTrimSecond maxLen (flushTrimFirst maxLen first) second).length : ℤ) ≤
      max 0 ((maxLen : ℤ) - (flushTrimFirst maxLen first).length - 3) :=
    pyTake_length_le _ _ (le_max_left _ _)
  rw [assemble_length]
  rcases le_total ((maxLen : ℤ) - (flushTrimFirst maxLen first).length - 3) 0 with hc | hc
  · rw [max_eq_left hc] at hs
    omega
  · rw [max_eq_right hc] at hs
    omega

/-- A flush preserves the flushed-length invariant. -/
theorem lenInv_flush {maxLen : ℕ} {st : PackState} (hm : 3 < maxLen)
    (h : LenInv maxLen st) : LenInv maxLen (flush maxLen st) := by
  simp only [flush]
  split <;>
  · intro e he
    rcases List.mem_append.mp he with hmem | hmem
    · exact h e hmem
    · rw [List.mem_singleton.mp hmem]
      exact flush_example_length_le hm _ _

/-- The conditional flush preserves the flushed-length invariant. -/
theorem lenInv_maybeFlush {maxLen : ℕ} {st : PackState} (hm : 3 < maxLen)
    (h : LenInv maxLen st) : LenInv maxLen (maybeFlush maxLen st) := by
  unfold maybeFlush
  split
  · exact lenInv_flush hm h
  · exact h

/-- One loop step preserves the flushed-length invariant. -/
theorem lenInv_step {maxLen : ℕ} (fstl : ℤ) {st : PackState} (hm : 3 < maxLen)
    (h : LenInv maxLen st) (sentence : Sentence) :
    LenInv maxLen (stepSentence maxLen fstl st sentence) := by
  unfold stepSentence
  split_ifs
  · exact h
  · exact h
  · exact lenInv_maybeFlush hm h
  · exact lenInv_maybeFlush hm h

/-- The whole loop preserves the flushed-length invariant. -/
theorem lenInv_loop {maxLen : ℕ} (fstl : ℤ) (hm : 3 < maxLen) :
    ∀ (batch : List Sentence) (st : PackState), LenInv maxLen st →
      LenInv maxLen (packLoop maxLen fstl batch st) := by
  intro batch
  induction batch with
  | nil => intro st h; exact h
  | cons sen rest ih =>
    intro st h
    rw [packLoop, List.foldl_cons]
    exact ih _ (lenInv_step fstl hm h sen)

/-- Claim C1 counterexample: with `max_length = 10 > 3`, the run on
`c1Batch` emits a mid-stream flushed Example of length 11 (the trimmed
first segment fills `max_length - 2 = 8`, the second segment is trimmed to
empty, and the three sentinels are still added) and a final end-of-stream
Example of length 12, both exceeding `max_length`. -/
theorem claimC1_counterexample :
    ¬ ∀ e ∈ createExamples 10 c1Batch halfRng, e.length ≤ 10 := by
  decide

/-- Claim C1 amended: every Example emitted by a mid-stream flush (i.e.
every emitted Example except the final end-of-stream one) has length at
most `max_length + 1`; the bound `max_length` itself can be exceeded by
exactly one token (second segment trimmed to empty, trimmed first segment
of `max_length - 2` tokens, plus three sentinels), and the final
end-of-stream Example is not length-bounded at all. -/
theorem claimC1_amended (maxLen : ℕ) (batch : List Sentence) (r0 : RandState)
    (hm : 3 < maxLen) :
    ∀ e ∈ (createExamples maxLen batch r0).dropLast, e.length ≤ maxLen + 1 := by
  have hinit : LenInv maxLen (initState maxLen (randFloat r0).2) := by
    intro e he
    simp [initState] at he
  have hrun := lenInv_loop (deriveFstl maxLen (randFloat r0).1) hm batch _ hinit
  intro e he
  simp only [createExamples] at he
  rw [List.dropLast_concat] at he
  exact hrun e he

/-- Witness for claim C1 amended at the counterexample run: both the
length-11 flushed Example and (vacuously excluded) final Example respect
the `max_length + 1` bound on the dropLast part. -/
theorem claimC1_amended_witness :
    3 < 10 ∧ ∀ e ∈ (createExamples 10 c1Batch halfRng).dropLast, e.length ≤ 10 + 1 :=
  ⟨by decide, claimC1_amended 10 c1Batch halfRng (by decide)⟩

/-- A flush appends exactly one example and bumps the ghost flush counter
by one. -/
theorem flush_examples_flushes (maxLen : ℕ) (st : PackState) :
    (flush maxLen st).examples.length = st.examples.length + 1 ∧
      (flush maxLen st).flushes = st.flushes + 1 := by
  simp only [flush]
  split <;> simp

/-- The equality `examples.length = flushes` is preserved by the
conditional flush. -/
theorem maybeFlush_count {maxLen : ℕ} {st : PackState}
    (h : st.examples.length = st.flushes) :
    (maybeFlush maxLen st).examples.length = (maybeFlush maxLen st).flushes := by
  unfold maybeFlush
  split
  · rw [(flush_examples_flushes maxLen st).1, (flush_examples_flushes maxLen st).2, h]
  · exact h

/-- The equality `examples.length = flushes` is preserved by one loop step. -/
theorem stepSentence_count {maxLen : ℕ} {fstl : ℤ} {st : PackState}
    (h : st.examples.length = st.flushes) (sentence : Sentence) :
    (stepSentence maxLen fstl st sentence).examples.length =
      (stepSentence maxLen fstl st sentence).flushes := by
  unfold stepSentence
  split_ifs
  · exact h
  · exact h
  · exact maybeFlush_count h
  · exact maybeFlush_count h

/-- The equality `examples.length = flushes` is preserved by the loop. -/
theorem packLoop_count (maxLen : ℕ) (fstl : ℤ) :
    ∀ (batch : List Sentence) (st : PackState), st.examples.length = st.flushes →
      (packLoop maxLen fstl batch st).examples.length =
        (packLoop maxLen fstl batch st).flushes := by
  intro batch
  induction batch with
  | nil => intro st h; exact h
  | cons sen rest ih =>
    intro st h
    rw [packLoop, List.foldl_cons]
    exact ih _ (stepSentence_count h sen)

/-- A well-formed `randint` call (`lo ≤ hi`) returns its wrap-free value. -/
theorem randInt_eq_of_le {lo hi : ℕ} (h : lo ≤ hi) (r : RandState) :
    randInt lo hi r = some (randIntWrap lo hi r) := by
  unfold randInt
  rw [if_pos h]

/-- With `5 ≤ max_length` a flush cannot raise: the checked flush returns
exactly the crash-free flush. -/
theorem flushChecked_eq {maxLen : ℕ} (hm : 5 ≤ maxLen) (st : PackState) :
    flushChecked maxLen st = some (flush maxLen st) := by
  simp only [flushChecked, flush, randInt_eq_of_le hm, Option.map_some']
  split <;> rfl

/-- With `5 ≤ max_length` the checked conditional flush returns exactly
the crash-free conditional flush. -/
theorem maybeFlushChecked_eq {maxLen : ℕ} (hm : 5 ≤ maxLen) (st : PackState) :
    maybeFlushChecked maxLen st = some (maybeFlush maxLen st) := by
  unfold maybeFlushChecked maybeFlush
  split
  · exact flushChecked_eq hm st
  · rfl

/-- With `5 ≤ max_length` the checked loop body returns exactly the
crash-free loop body. -/
theorem stepSentenceChecked_eq {maxLen : ℕ} (fstl : ℤ) (hm : 5 ≤ maxLen)
    (st : PackState) (sentence : Sentence) :
    stepSentenceChecked maxLen fstl st sentence =
      some (stepSentence maxLen fstl st sentence) := by
  simp only [stepSentenceChecked, stepSentence]
  split_ifs
  · rfl
  · rfl
  · exact maybeFlushChecked_eq hm _
  · exact maybeFlushChecked_eq hm _

/-- With `5 ≤ max_length` the checked loop returns exactly the crash-free
loop. -/
theorem packLoopChecked_eq {maxLen : ℕ} (fstl : ℤ) (hm : 5 ≤ maxLen) :
    ∀ (batch : List Sentence) (st : PackState),
      packLoopChecked maxLen fstl batch st = some (packLoop maxLen fstl batch st) := by
  intro batch
  induction batch with
  | nil => intro st; rfl
  | cons sen rest ih =>
    intro st
    rw [packLoopChecked, stepSentenceChecked_eq fstl hm st sen, Option.some_bind,
      packLoop, List.foldl_cons]
    exact ih _

/-- With `5 ≤ max_length` the error branch is unreachable, so the raising
run agrees with the crash-free projection everywhere. -/
theorem createExamplesChecked_eq {maxLen : ℕ} (batch : List Sentence) (r0 : RandState)
    (hm : 5 ≤ maxLen) :
    createExamplesChecked maxLen batch r0 = some (createExamples maxLen batch r0) := by
  unfold createExamplesChecked createExamples packRun
  rw [packLoopChecked_eq _ hm batch _]
  rfl

/-- Claim C5 counterexample: `max_length = 4` is allowed by the contract
(`max_length > 3`), yet on `c5Batch` with the short-target draw fired the
flush calls `randint(5, 4)`, which raises `ValueError`: the call aborts
and emits nothing, rather than `1 + number_of_flushes` Examples. -/
theorem claimC5_counterexample :
    3 < 4 ∧ createExamplesChecked 4 c5Batch c5Rng = none := by
  constructor
  · decide
  · decide

/-- Claim C5 amended: whenever `5 ≤ max_length` — so that
`randint(5, max_length)` is well-formed and the run cannot raise — the
packer emits exactly `1 + number_of_flushes` Examples (the flushed ones
plus the unconditional end-of-stream Example); on an empty sentence stream
no flush ever fires, so for every `max_length` the run completes and emits
exactly one Example consisting of the three sentinels. -/
theorem claimC5_amended (maxLen : ℕ) (batch : List Sentence) (r0 : RandState)
    (hm : 5 ≤ maxLen) :
    createExamplesChecked maxLen batch r0 = some (createExamples maxLen batch r0) ∧
      (createExamples maxLen batch r0).length = numFlushes maxLen batch r0 + 1 ∧
      ∀ m : ℕ, createExamplesChecked m [] r0 = some [["[CLS]", "[SEP]", "[SEP]"]] := by
  refine ⟨createExamplesChecked_eq batch r0 hm, ?_, fun m => rfl⟩
  have h := packLoop_count maxLen (deriveFstl maxLen (randFloat r0).1) batch
    (initState maxLen (randFloat r0).2) rfl
  simp only [createExamples, numFlushes, List.length_append, List.length_cons,
    List.length_nil]
  simp only [packRun] at h ⊢
  omega

/-- Witness for claim C5 amended at a concrete run with `max_length = 10`:
the checked run completes with the crash-free output, whose length is
`number_of_flushes + 1`. -/
theorem claimC5_amended_witness :
    (5 : ℕ) ≤ 10 ∧
      (createExamplesChecked 10 c2Batch halfRng =
          some (createExamples 10 c2Batch halfRng) ∧
        (createExamples 10 c2Batch halfRng).length = numFlushes 10 c2Batch halfRng + 1 ∧
        ∀ m : ℕ, createExamplesChecked m [] halfRng = some [["[CLS]", "[SEP]", "[SEP]"]]) :=
  ⟨by decide, claimC5_amended 10 c2Batch halfRng (by decide)⟩

/-- Claim C9: the final end-of-stream Example is assembled from the loop's
final segments with no truncation: it is exactly
`[CLS] ++ first ++ [SEP] ++ second ++ [SEP]`, and an assembled example's
length is always `len(first) + len(second) + 3`. -/
theorem claimC9_final_untrimmed (maxLen : ℕ) (batch : List Sentence) (r0 : RandState) :
    (createExamples maxLen batch r0).getLast? =
        some (assemble (packRun maxLen batch r0).firstSegment
          (packRun maxLen batch r0).secondSegment) ∧
      ∀ f s : List Token, (assemble f s).length = f.length + s.length + 3 := by
  constructor
  · simp only [createExamples]
    exact List.getLast?_concat _
  · exact assemble_length

/-- Witness for claim C6 at a concrete run: the single Example emitted on
the scenario stream has exactly one `[CLS]` and exactly two `[SEP]`. -/
theorem claimC6_sentinel_shape_witness :
    ∃ f s,
      ["[CLS]", "The", "cat", "sat", ".", "[SEP]", "It", "was", "happy", ".", "[SEP]"] =
          assemble f s ∧
        (["[CLS]", "The", "cat", "sat", ".", "[SEP]", "It", "was", "happy", ".",
          "[SEP]"] : List Token).count "[CLS]" = 1 ∧
        (["[CLS]", "The", "cat", "sat", ".", "[SEP]", "It", "was", "happy", ".",
          "[SEP]"] : List Token).count "[SEP]" = 2 :=
  claimC6_sentinel_shape 10 c2Batch halfRng (by decide) (by decide)
    ["[CLS]", "The", "cat", "sat", ".", "[SEP]", "It", "was", "happy", ".", "[SEP]"]
    (by decide)
